import Mathlib

/-!
Verification of the read-through cache layer of the rexpress backend.

The embedding covers the two components the specification describes:

* the cache client adapter, `backend/src/config/redis.js`: module-level
  state `redisClient` / `redisReady`, the startup routine `connectRedis`,
  the accessor `getRedisClient`, and the `end` / `error` event handlers
  installed on the client (the `ready` handler fires exactly when the
  single `connect()` call resolves, so a successful connect is modelled
  as producing the client with `redisReady = true`; `reconnectStrategy:
  false` means no further `ready` event can fire afterwards, so the
  post-startup event alphabet is `end` / `error` only);

* the read-through route handler, `backend/src/routes/products.js`
  (`router.get("/")`): a guarded cache read with `JSON.parse`, a
  simulated authoritative source producing the static product list, a
  guarded fire-and-forget `setEx` cache write with TTL 60, and an outer
  try/catch that turns a failure of the source itself into
  `res.status(500).json({ error: "Internal server error" })`.

The external cache service is modelled as an association list of
`(key, value, ttlSeconds)` entries; `redis.get` failure and `setEx`
failure are fault oracles (`readFails` / `writeFails`).  The cached
payloads of this route are serialized product lists, so `JSON.parse` is
modelled by a concrete parser for that shape which fails on any
malformed payload.
-/

/-- One product of the mock authoritative source. -/
structure Product where
  id : Nat
  name : String
deriving DecidableEq, Repr

/-- The static list the simulated database returns in the route handler. -/
def products : List Product :=
  [{ id := 1, name := "Laptop" }, { id := 2, name := "Phone" }]

/-- The single resource key used by the handler (`"products:all"`). -/
def cacheKey : String := "products:all"

/-! ## Serialization (`JSON.stringify`) -/

/-- `JSON.stringify` of one product, as produced by the route handler. -/
def serializeProduct (p : Product) : String :=
  "\x7b\"id\":" ++ toString p.id ++ ",\"name\":\"" ++ p.name ++ "\"\x7d"

/-- `JSON.stringify` of the product list. -/
def serialize (l : List Product) : String :=
  "[" ++ String.intercalate "," (l.map serializeProduct) ++ "]"

/-! ## Deserialization (`JSON.parse` on this route's payload shape) -/

/-- Consume a maximal run of decimal digits. -/
def takeDigits : List Char → (List Char × List Char)
  | [] => ([], [])
  | c :: cs =>
    if c.isDigit then
      let r := takeDigits cs
      (c :: r.1, r.2)
    else ([], c :: cs)

/-- Parse a nonempty run of digits as a natural number. -/
def parseNat (cs : List Char) : Option (Nat × List Char) :=
  match takeDigits cs with
  | ([], _) => none
  | (ds, rest) => some (ds.foldl (fun n c => 10 * n + (c.toNat - 48)) 0, rest)

/-- Consume an exact literal prefix. -/
def dropLit : List Char → List Char → Option (List Char)
  | [], cs => some cs
  | _ :: _, [] => none
  | p :: ps, c :: cs => if c = p then dropLit ps cs else none

/-- Consume characters up to (and including) a closing quote. -/
def takeUntilQuote : List Char → Option (List Char × List Char)
  | [] => none
  | c :: cs =>
    if c = '"' then some ([], cs)
    else
      match takeUntilQuote cs with
      | none => none
      | some (s, rest) => some (c :: s, rest)

/-- Parse one serialized product object. -/
def parseProduct (cs : List Char) : Option (Product × List Char) :=
  match dropLit ("\x7b\"id\":".data) cs with
  | none => none
  | some cs1 =>
    match parseNat cs1 with
    | none => none
    | some (n, cs2) =>
      match dropLit (",\"name\":\"".data) cs2 with
      | none => none
      | some cs3 =>
        match takeUntilQuote cs3 with
        | none => none
        | some (s, cs4) =>
          match dropLit ("\x7d".data) cs4 with
          | none => none
          | some cs5 => some ({ id := n, name := String.mk s }, cs5)

/-- Parse a comma-separated sequence of product objects (fuel-bounded). -/
def parseItems : Nat → List Char → Option (List Product × List Char)
  | 0, _ => none
  | fuel + 1, cs =>
    match parseProduct cs with
    | none => none
    | some (p, rest) =>
      match rest with
      | ',' :: rest2 =>
        match parseItems fuel rest2 with
        | none => none
        | some (ps, rest3) => some (p :: ps, rest3)
      | _ => some ([p], rest)

/-- `JSON.parse` on a cached payload of this route: succeeds exactly on a
serialized product list, fails (`none`) on any malformed payload. -/
def deserialize (s : String) : Option (List Product) :=
  match s.data with
  | '[' :: ']' :: rest => if rest = [] then some [] else none
  | '[' :: cs =>
    match parseItems (cs.length + 1) cs with
    | some (ps, [']']) => some ps
    | _ => none
  | _ => none

/-! ## External cache service -/

/-- The external cache service contents: `(key, value, ttlSeconds)` entries. -/
abbrev Store := List (String × String × Nat)

/-- `redis.get key` against the store contents. -/
def storeGet (st : Store) (k : String) : Option String :=
  (st.find? (fun e => e.1 = k)).map (fun e => e.2.1)

/-- `redis.setEx key ttl value`: the entry for `k` is replaced. -/
def storeSet (st : Store) (k v : String) (ttl : Nat) : Store :=
  (k, v, ttl) :: st.filter (fun e => ¬ e.1 = k)

/-! ## Cache client adapter (`backend/src/config/redis.js`) -/

/-- The adapter's module-level state: `redisClient` (null or present) and
`redisReady`. -/
structure RedisState where
  redisClient : Bool
  redisReady : Bool
deriving DecidableEq, Repr

/-- State at module load: `redisClient = null`, `redisReady = false`. -/
def initState : RedisState := { redisClient := false, redisReady := false }

/-- `process.env.REDIS_ENABLED !== "true"` disables the cache: the flag is
enabled exactly when the environment variable is present and equal to
`"true"`. -/
def envEnabled (v : Option String) : Bool := v = some "true"

/-- `connectRedis()`: if the env flag is not `"true"`, return null with the
state untouched.  Otherwise attempt a single connection (`connectOk` is the
outcome oracle): on success the client is stored and the `ready` event has
fired (`redisReady = true`); on failure the catch block resets both fields
and returns null. -/
def connectRedis (env : Option String) (connectOk : Bool) (s : RedisState) :
    RedisState × Option Unit :=
  if envEnabled env = false then (s, none)
  else if connectOk then ({ redisClient := true, redisReady := true }, some ())
  else ({ redisClient := false, redisReady := false }, none)

/-- Post-startup connection-level events; with `reconnectStrategy: false`
no `ready` event can fire after startup, so only `end` and `error`
remain. -/
inductive RedisEvent
  | endEv
  | errEv
deriving DecidableEq, Repr

/-- The `end` and `error` handlers both set `redisReady = false`. -/
def applyEvent : RedisEvent → RedisState → RedisState
  | _, s => { s with redisReady := false }

/-- The adapter state after a sequence of post-startup events. -/
def runEvents (evs : List RedisEvent) (s : RedisState) : RedisState :=
  evs.foldl (fun t e => applyEvent e t) s

/-- `getRedisClient()`: the client handle if present and ready, else null. -/
def getRedisClient (s : RedisState) : Option Unit :=
  if s.redisClient && s.redisReady then some () else none

/-- The states of the adapter reachable in one process lifetime: module
load, then `connectRedis` calls, then connection-level events. -/
inductive Reachable (env : Option String) : RedisState → Prop
  | init : Reachable env initState
  | connect (s : RedisState) (ok : Bool) :
      Reachable env s → Reachable env (connectRedis env ok s).1
  | event (s : RedisState) (e : RedisEvent) :
      Reachable env s → Reachable env (applyEvent e s)

/-! ## Read-through handler (`backend/src/routes/products.js`) -/

/-- The response the route sends: `res.json({source, data})` on success,
`res.status(500).json({error})` when the outer catch fires. -/
inductive Response
  | ok (source : String) (data : List Product)
  | internalError (msg : String)
deriving DecidableEq, Repr

/-- Which side effects a call performed: whether `redis.get` was invoked,
whether the authoritative source was invoked, whether `redis.setEx` was
invoked. -/
structure Effects where
  readAttempted : Bool
  sourceInvoked : Bool
  writeAttempted : Bool
deriving DecidableEq, Repr

/-- The guarded cache-read step: `if (redis)`, then `redis.get` inside the
inner try (a thrown get is caught: `readFails`), then the truthiness test
`if (cached)` (null and the empty string both fail it), then `JSON.parse`
inside the same inner try (a parse error is caught and falls through). -/
def cacheHit (redis : Option Unit) (store : Store) (readFails : Bool) :
    Option (List Product) :=
  match redis with
  | none => none
  | some _ =>
    if readFails then none
    else
      match storeGet store cacheKey with
      | none => none
      | some cached => if cached = "" then none else deserialize cached

/-- The route handler body.  On a cache hit it returns immediately with
`source: "cache"`.  Otherwise it invokes the authoritative source (`db`;
a failure there is the only way to reach the outer catch), then performs
the guarded `setEx` write (`if (redis)`, inner try swallowing `writeFails`)
with TTL 60, and responds with `source: "db"`. -/
def getProducts (redis : Option Unit) (store : Store)
    (readFails writeFails : Bool) (db : Except String (List Product)) :
    Response × Store × Effects :=
  match cacheHit redis store readFails with
  | some v =>
    (Response.ok "cache" v, store,
      { readAttempted := redis.isSome, sourceInvoked := false,
        writeAttempted := false })
  | none =>
    match db with
    | Except.error _ =>
      (Response.internalError "Internal server error", store,
        { readAttempted := redis.isSome, sourceInvoked := true,
          writeAttempted := false })
    | Except.ok v =>
      (Response.ok "db" v,
        (if redis.isSome && !writeFails then
          storeSet store cacheKey (serialize v) 60
        else store),
        { readAttempted := redis.isSome, sourceInvoked := true,
          writeAttempted := redis.isSome })

/-! ## Shared lemmas -/

/-- With a null handle the handler touches no cache state at all. -/
theorem getProducts_noClient (store : Store) (rf wf : Bool)
    (v : List Product) :
    getProducts none store rf wf (Except.ok v)
      = (Response.ok "db" v, store,
          { readAttempted := false, sourceInvoked := true,
            writeAttempted := false }) := by
  simp [getProducts, cacheHit]

/-- A `setEx` write makes the written value the one a subsequent `get`
returns. -/
theorem storeGet_storeSet (st : Store) (k v : String) (ttl : Nat) :
    storeGet (storeSet st k v ttl) k = some v := by
  simp [storeGet, storeSet, List.find?]

/-- Events never set `redisReady`; a state that is not ready stays not
ready under any event sequence. -/
theorem runEvents_ready_false (evs : List RedisEvent) (s : RedisState)
    (h : s.redisReady = false) : (runEvents evs s).redisReady = false := by
  induction evs generalizing s with
  | nil => exact h
  | cons e evs ih => exact ih _ rfl

/-- A state that is not ready yields the null handle. -/
theorem getRedisClient_of_not_ready (s : RedisState)
    (h : s.redisReady = false) : getRedisClient s = none := by
  simp [getRedisClient, h]

/-- Invariant helper: in every reachable state, `redisReady` is false when
the configuration flag is disabled. -/
theorem reachable_disabled_not_ready (env : Option String) (s : RedisState)
    (hs : Reachable env s) (henv : envEnabled env = false) :
    s.redisReady = false := by
  induction hs with
  | init => rfl
  | connect t ok _ ih => simp [connectRedis, henv]; exact ih
  | event t e _ ih => rfl

/-! ## Claims -/

/-- C1: with the cache disabled via configuration (`REDIS_ENABLED` absent
or not `"true"`), every fetch returns the authoritative value with
provenance `"db"` (the wire name of provenance `"source"`), the store is
untouched, and no cache read or write is attempted; an enabled-and-healthy
cache holding that value returns the same data, differing only in the
provenance tag. -/
theorem cache_disabled_source_only (env : Option String) (s : RedisState)
    (store store2 : Store) (rf wf wf2 : Bool) (v : List Product) (c : String)
    (henv : envEnabled env = false) (hs : Reachable env s)
    (hc : storeGet store2 cacheKey = some c) (hne : c ≠ "")
    (hdes : deserialize c = some v) :
    getProducts (getRedisClient s) store rf wf (Except.ok v)
      = (Response.ok "db" v, store,
          { readAttempted := false, sourceInvoked := true,
            writeAttempted := false })
    ∧ (getProducts (some ()) store2 false wf2 (Except.ok v)).1
      = Response.ok "cache" v := by
  constructor
  · rw [getRedisClient_of_not_ready s (reachable_disabled_not_ready env s hs henv)]
    exact getProducts_noClient store rf wf v
  · simp [getProducts, cacheHit, hc, hne, hdes]

/-- Witness for C1 at `env = none`, the initial state, an empty store and
a healthy cache holding the serialized product list. -/
theorem cache_disabled_source_only_witness :
    getProducts (getRedisClient initState) [] false false (Except.ok products)
      = (Response.ok "db" products, [],
          { readAttempted := false, sourceInvoked := true,
            writeAttempted := false })
    ∧ (getProducts (some ()) [(cacheKey, serialize products, 60)] false false
        (Except.ok products)).1 = Response.ok "cache" products :=
  cache_disabled_source_only none initState [] [(cacheKey, serialize products, 60)]
    false false false products (serialize products) rfl Reachable.init
    (by decide) (by decide) (by decide)

/-- C2: when the connection attempt of `connectRedis` fails, the catch
block returns null normally with `redisReady = false`, and every later
fetch (after any further events) returns the authoritative value with
provenance `"db"` and performs no cache I/O. -/
theorem init_failure_fail_soft (env : Option String) (evs : List RedisEvent)
    (store : Store) (rf wf : Bool) (v : List Product)
    (henv : envEnabled env = true) :
    (connectRedis env false initState).2 = none
    ∧ ((connectRedis env false initState).1).redisReady = false
    ∧ getProducts
        (getRedisClient (runEvents evs (connectRedis env false initState).1))
        store rf wf (Except.ok v)
      = (Response.ok "db" v, store,
          { readAttempted := false, sourceInvoked := true,
            writeAttempted := false }) := by
  have hstate : (connectRedis env false initState).1
      = { redisClient := false, redisReady := false } := by
    simp [connectRedis, henv]
  refine ⟨by simp [connectRedis, henv], by rw [hstate], ?_⟩
  rw [getRedisClient_of_not_ready _ (runEvents_ready_false evs _ (by rw [hstate]))]
  exact getProducts_noClient store rf wf v

/-- Witness for C2 at `REDIS_ENABLED=true`, no further events, an empty
store and the static product list. -/
theorem init_failure_fail_soft_witness :
    (connectRedis (some "true") false initState).2 = none
    ∧ ((connectRedis (some "true") false initState).1).redisReady = false
    ∧ getProducts
        (getRedisClient (runEvents [] (connectRedis (some "true") false initState).1))
        [] false false (Except.ok products)
      = (Response.ok "db" products, [],
          { readAttempted := false, sourceInvoked := true,
            writeAttempted := false }) :=
  init_failure_fail_soft (some "true") [] [] false false products (by decide)

/-- C3: a successful cache read yielding a non-empty payload that
deserializes returns that payload with provenance `"cache"` immediately:
the source is not invoked, no write is attempted and the store is
unchanged, whatever the source would have produced. -/
theorem cache_hit_short_circuit (store : Store) (wf : Bool)
    (db : Except String (List Product)) (c : String) (v : List Product)
    (hget : storeGet store cacheKey = some c) (hne : c ≠ "")
    (hdes : deserialize c = some v) :
    getProducts (some ()) store false wf db
      = (Response.ok "cache" v, store,
          { readAttempted := true, sourceInvoked := false,
            writeAttempted := false }) := by
  simp [getProducts, cacheHit, hget, hne, hdes]

/-- Witness for C3: the store holds the serialized product list and the
source is a failure, which the hit never consults. -/
theorem cache_hit_short_circuit_witness :
    getProducts (some ()) [(cacheKey, serialize products, 60)] false false
        (Except.error "source down")
      = (Response.ok "cache" products, [(cacheKey, serialize products, 60)],
          { readAttempted := true, sourceInvoked := false,
            writeAttempted := false }) :=
  cache_hit_short_circuit [(cacheKey, serialize products, 60)] false
    (Except.error "source down") (serialize products) products
    (by decide) (by decide) (by decide)

/-- C4: a malformed cached payload (non-empty but not deserializable) is
treated exactly as a miss: no error is surfaced, the source is invoked,
the response is `source: "db"` with the authoritative value, and the
subsequent `setEx` overwrites the corrupted entry with the serialized
authoritative value. -/
theorem malformed_cache_treated_as_miss (store : Store) (c : String)
    (v : List Product) (hget : storeGet store cacheKey = some c)
    (hne : c ≠ "") (hbad : deserialize c = none) :
    getProducts (some ()) store false false (Except.ok v)
      = (Response.ok "db" v, storeSet store cacheKey (serialize v) 60,
          { readAttempted := true, sourceInvoked := true,
            writeAttempted := true })
    ∧ storeGet (storeSet store cacheKey (serialize v) 60) cacheKey
      = some (serialize v) := by
  constructor
  · simp [getProducts, cacheHit, hget, hne, hbad]
  · exact storeGet_storeSet store cacheKey (serialize v) 60

/-- Witness for C4: the store holds a corrupted non-JSON payload under
`"products:all"`. -/
theorem malformed_cache_treated_as_miss_witness :
    getProducts (some ()) [(cacheKey, "corrupted%%%", 30)] false false
        (Except.ok products)
      = (Response.ok "db" products,
          storeSet [(cacheKey, "corrupted%%%", 30)] cacheKey
            (serialize products) 60,
          { readAttempted := true, sourceInvoked := true,
            writeAttempted := true })
    ∧ storeGet (storeSet [(cacheKey, "corrupted%%%", 30)] cacheKey
        (serialize products) 60) cacheKey = some (serialize products) :=
  malformed_cache_treated_as_miss [(cacheKey, "corrupted%%%", 30)]
    "corrupted%%%" products (by decide) (by decide) (by decide)

/-- C5: the outcome of the cache-population write is ignored: for every
handle, store, read-fault and source outcome, the response sent to the
caller is identical whether the write fails or succeeds, and so are the
recorded read/source/write attempts. -/
theorem write_outcome_ignored (redis : Option Unit) (store : Store)
    (rf : Bool) (db : Except String (List Product)) :
    (getProducts redis store rf true db).1 = (getProducts redis store rf false db).1
    ∧ (getProducts redis store rf true db).2.2
      = (getProducts redis store rf false db).2.2 := by
  cases hc : cacheHit redis store rf <;> cases db <;>
    simp [getProducts, hc]

/-- C6: an error-shaped response can only arise from a failure of the
authoritative source, and it carries the fixed server-error message; when
the source succeeds the response is success-shaped with source tag
`"cache"` or `"db"`, for every cache handle, store contents and cache
fault pattern — cache-layer faults never produce the error shape. -/
theorem source_failure_only_error (redis : Option Unit) (store : Store)
    (rf wf : Bool) (db : Except String (List Product)) :
    (∀ m, (getProducts redis store rf wf db).1 = Response.internalError m →
      m = "Internal server error" ∧ ∃ e, db = Except.error e)
    ∧ (∀ v, db = Except.ok v →
      ∃ src d, (getProducts redis store rf wf db).1 = Response.ok src d
        ∧ (src = "cache" ∨ src = "db")) := by
  constructor
  · intro m hm
    cases hc : cacheHit redis store rf with
    | some w => simp [getProducts, hc] at hm
    | none =>
      cases db with
      | ok v => simp [getProducts, hc] at hm
      | error e =>
        simp [getProducts, hc] at hm
        exact ⟨hm.symm, e, rfl⟩
  · intro v hv
    subst hv
    cases hc : cacheHit redis store rf with
    | none => exact ⟨"db", v, by simp [getProducts, hc], Or.inr rfl⟩
    | some w => exact ⟨"cache", w, by simp [getProducts, hc], Or.inl rfl⟩

/-- Witness for C6 at a failing source and at a succeeding source. -/
theorem source_failure_only_error_witness :
    ("Internal server error" = "Internal server error"
      ∧ ∃ e, (Except.error "down" : Except String (List Product))
        = Except.error e)
    ∧ ∃ src d,
      (getProducts (some ()) [] false false (Except.ok products)).1
        = Response.ok src d ∧ (src = "cache" ∨ src = "db") :=
  ⟨(source_failure_only_error (some ()) [] false false
      (Except.error "down")).1 "Internal server error" (by decide),
   (source_failure_only_error (some ()) [] false false
      (Except.ok products)).2 products rfl⟩

/-- C7: scenario A.  With a healthy enabled cache and the key absent, the
first fetch returns the product list with source `"db"` and stores the
serialized list under `"products:all"` with TTL 60; a second fetch against
the resulting store returns source `"cache"` with the identical payload
(deserialize of serialize restores the stored value). -/
theorem scenario_round_trip :
    getProducts (some ()) [] false false (Except.ok products)
      = (Response.ok "db" products, [(cacheKey, serialize products, 60)],
          { readAttempted := true, sourceInvoked := true,
            writeAttempted := true })
    ∧ getProducts (some ()) [(cacheKey, serialize products, 60)] false false
        (Except.ok products)
      = (Response.ok "cache" products, [(cacheKey, serialize products, 60)],
          { readAttempted := true, sourceInvoked := false,
            writeAttempted := false })
    ∧ deserialize (serialize products) = some products := by
  refine ⟨by decide, by decide, by decide⟩

/-- C8: in every reachable adapter state, `redisReady` is never true while
the configuration flag is disabled, and `getRedisClient` returns the null
sentinel whenever the client is absent or not ready (it is a total
function, so it never raises). -/
theorem ready_implies_enabled (env : Option String) (s : RedisState)
    (hs : Reachable env s) :
    (envEnabled env = false → s.redisReady = false)
    ∧ (s.redisReady = false ∨ s.redisClient = false →
        getRedisClient s = none) := by
  refine ⟨fun henv => reachable_disabled_not_ready env s hs henv, fun h => ?_⟩
  cases h with
  | inl h => exact getRedisClient_of_not_ready s h
  | inr h => simp [getRedisClient, h]

/-- Witness for C8 at a disabled environment and the initial state. -/
theorem ready_implies_enabled_witness :
    (envEnabled none = false → initState.redisReady = false)
    ∧ (initState.redisReady = false ∨ initState.redisClient = false →
        getRedisClient initState = none) :=
  ready_implies_enabled none initState Reachable.init

/-- C9: there is no failed-to-ready transition: every `end`/`error` event
leaves `redisReady` false, a state that is not ready (after a failed
connect or a later closure) stays not ready under every further event
sequence, and each fetch in such a state returns the authoritative value
with provenance `"db"` and no cache I/O, raising nothing. -/
theorem no_reconnect_after_failure (s : RedisState) (evs : List RedisEvent)
    (store : Store) (rf wf : Bool) (v : List Product)
    (h : s.redisReady = false) :
    (∀ e t, (applyEvent e t).redisReady = false)
    ∧ (runEvents evs s).redisReady = false
    ∧ getProducts (getRedisClient (runEvents evs s)) store rf wf
        (Except.ok v)
      = (Response.ok "db" v, store,
          { readAttempted := false, sourceInvoked := true,
            writeAttempted := false }) := by
  refine ⟨fun e t => rfl, runEvents_ready_false evs s h, ?_⟩
  rw [getRedisClient_of_not_ready _ (runEvents_ready_false evs s h)]
  exact getProducts_noClient store rf wf v

/-- Witness for C9: a connection that was established and then closed
(`redisClient` present, `redisReady` dropped by the `end` event). -/
theorem no_reconnect_after_failure_witness :
    (∀ e t, (applyEvent e t).redisReady = false)
    ∧ (runEvents [RedisEvent.errEv]
        (applyEvent RedisEvent.endEv
          { redisClient := true, redisReady := true })).redisReady = false
    ∧ getProducts
        (getRedisClient (runEvents [RedisEvent.errEv]
          (applyEvent RedisEvent.endEv
            { redisClient := true, redisReady := true })))
        [] false false (Except.ok products)
      = (Response.ok "db" products, [],
          { readAttempted := false, sourceInvoked := true,
            writeAttempted := false }) :=
  no_reconnect_after_failure
    (applyEvent RedisEvent.endEv { redisClient := true, redisReady := true })
    [RedisEvent.errEv] [] false false products rfl

/-- C10: a present cache entry whose stored value is the empty string
fails the truthiness test `if (cached)` and is treated as a miss: the
source is invoked, the response is `source: "db"` with the authoritative
value, and the entry is overwritten by the serialized value. -/
theorem empty_string_entry_is_miss (store : Store) (v : List Product)
    (hget : storeGet store cacheKey = some "") :
    getProducts (some ()) store false false (Except.ok v)
      = (Response.ok "db" v, storeSet store cacheKey (serialize v) 60,
          { readAttempted := true, sourceInvoked := true,
            writeAttempted := true })
    ∧ storeGet (storeSet store cacheKey (serialize v) 60) cacheKey
      = some (serialize v) := by
  refine ⟨?_, storeGet_storeSet store cacheKey (serialize v) 60⟩
  simp [getProducts, cacheHit, hget]

/-- Witness for C10: the store holds the empty string under
`"products:all"`. -/
theorem empty_string_entry_is_miss_witness :
    getProducts (some ()) [(cacheKey, "", 60)] false false (Except.ok products)
      = (Response.ok "db" products,
          storeSet [(cacheKey, "", 60)] cacheKey (serialize products) 60,
          { readAttempted := true, sourceInvoked := true,
            writeAttempted := true })
    ∧ storeGet (storeSet [(cacheKey, "", 60)] cacheKey (serialize products) 60)
        cacheKey = some (serialize products) :=
  empty_string_entry_is_miss [(cacheKey, "", 60)] products (by decide)
